import Mathlib

/-!
Shallow embedding of `src/stroke.py`, a single-file Streamlit dashboard over a
stroke-healthcare CSV.  Rows are modelled as records; pandas column operations
become list operations; floating-point columns are modelled over `ℚ`; a missing
value (`NaN`) in a categorical or numeric column is `Option.none`; a library
call that can raise becomes `Except String`.
-/

namespace Stroke

/-- A raw CSV row after the positional column renaming (lines 11-16 of
`stroke.py`): the four categorical columns are still integer codes. -/
structure Raw where
  id : ℤ
  genderCode : ℤ
  age : ℚ
  hypertension : ℤ
  heartDisease : ℤ
  everMarried : ℤ
  workTypeCode : ℤ
  residenceCode : ℤ
  avgGlucose : ℚ
  bmi : Option ℚ
  smokingCode : ℤ
  stroke : ℤ
deriving DecidableEq

/-- A loaded Patient Record: categorical codes remapped to labels.  A code
outside the domain of a map becomes `none` (pandas `Series.map` yields `NaN`). -/
structure Patient where
  id : ℤ
  gender : Option String
  age : ℚ
  hypertension : ℤ
  heartDisease : ℤ
  everMarried : ℤ
  workType : Option String
  residence : Option String
  avgGlucose : ℚ
  bmi : Option ℚ
  smokingCode : ℤ
  smoking : Option String
  stroke : ℤ
deriving DecidableEq

/-- The gender lookup table of line 18: 0 to Female, 1 to Male. -/
def gender_map (c : ℤ) : Option String :=
  if c = 0 then some "Female" else if c = 1 then some "Male" else none

/-- `work_type_map` (line 19). -/
def work_type_map (c : ℤ) : Option String :=
  if c = 0 then some "Never Worked" else if c = 1 then some "Private"
  else if c = 2 then some "Self-employed" else if c = 3 then some "Govt Job"
  else if c = 4 then some "Children" else none

/-- The residence lookup table of line 20: 0 to Rural, 1 to Urban. -/
def residence_type_map (c : ℤ) : Option String :=
  if c = 0 then some "Rural" else if c = 1 then some "Urban" else none

/-- `smoking_status_map` (line 21). -/
def smoking_status_map (c : ℤ) : Option String :=
  if c = 0 then some "Unknown" else if c = 1 then some "Formerly Smoked"
  else if c = 2 then some "Never Smoked" else if c = 3 then some "Smokes" else none

/-- One row through the four `Series.map` relabelings (lines 23-26). -/
def mapRow (r : Raw) : Patient :=
  { id := r.id
    gender := gender_map r.genderCode
    age := r.age
    hypertension := r.hypertension
    heartDisease := r.heartDisease
    everMarried := r.everMarried
    workType := work_type_map r.workTypeCode
    residence := residence_type_map r.residenceCode
    avgGlucose := r.avgGlucose
    bmi := r.bmi
    smokingCode := r.smokingCode
    smoking := smoking_status_map r.smokingCode
    stroke := r.stroke }

/-- `load_data` (lines 10-27): read rows, rename columns, remap the four
categorical columns once each. -/
def load_data (raw : List Raw) : List Patient :=
  raw.map mapRow

/-- the Gender `isin(selected_genders)` mask for one row: a `NaN` label is never
`isin` any selection. -/
def genderIsin (sel : List String) (r : Patient) : Bool :=
  match r.gender with
  | some g => decide (g ∈ sel)
  | none => false

/-- The Smoking Status `isin(selected_smoking)` mask for one row. -/
def smokingIsin (sel : List String) (r : Patient) : Bool :=
  match r.smoking with
  | some s => decide (s ∈ sel)
  | none => false

/-- The conjunction of the four boolean masks of lines 54-57. -/
def rowPred (a b : ℚ) (genders smoking : List String) (r : Patient) : Bool :=
  decide (a ≤ r.age) && decide (r.age ≤ b) && genderIsin genders r && smokingIsin smoking r

/-- `filtered_df` (lines 53-58): boolean-mask selection over `df`. -/
def filtered_df (df : List Patient) (a b : ℚ) (genders smoking : List String) :
    List Patient :=
  df.filter (rowPred a b genders smoking)

/-- Minimum of a list of rationals, pandas-style: defined on nonempty input
(`Series.min`); the `0` branch is never consulted under the nonemptiness
hypotheses of the theorems below. -/
def minQ (l : List ℚ) : ℚ :=
  match l with
  | [] => 0
  | x :: xs => xs.foldl min x

/-- Maximum of a list of rationals, pandas-style (`Series.max`). -/
def maxQ (l : List ℚ) : ℚ :=
  match l with
  | [] => 0
  | x :: xs => xs.foldl max x

/-- Python `int()` on a rational: truncation toward zero. -/
def pyInt (q : ℚ) : ℤ :=
  if q < 0 then q.ceil else q.floor

/-- The `Age` column of a dataset. -/
def agesOf (df : List Patient) : List ℚ :=
  df.map (·.age)

/-- Slider lower bound, `int` of the Age minimum (line 35), also the default
selected lower end (line 37). -/
def defaultLo (df : List Patient) : ℤ :=
  pyInt (minQ (agesOf df))

/-- Slider upper bound, `int` of the Age maximum (line 36), also the default
selected upper end (line 37). -/
def defaultHi (df : List Patient) : ℤ :=
  pyInt (maxQ (agesOf df))

/-- The Gender `dropna().unique()` options of lines 42-43: the distinct non-missing
gender labels, used both as the options and the default selection. -/
def defaultGenders (df : List Patient) : List String :=
  (df.filterMap (·.gender)).dedup

/-- The Smoking Status `dropna().unique()` options of lines 48-49. -/
def defaultSmoking (df : List Patient) : List String :=
  (df.filterMap (·.smoking)).dedup

/-- Mean of a list of rationals, `Series.mean` style (sum divided by count). -/
def meanQ (l : List ℚ) : ℚ :=
  l.sum / l.length

/-- The four KPI cards (lines 64-68).  They are computed from `df`, the full
loaded dataset, even though the filter selection (the four ignored arguments)
is in scope at that point of the script: total row count, mean glucose, mean
BMI over the non-missing values (pandas `mean` skips `NaN`), stroke sum. -/
def kpiCards (df : List Patient) (_a _b : ℚ) (_genders _smoking : List String) :
    ℕ × ℚ × ℚ × ℤ :=
  (df.length,
   meanQ (df.map (·.avgGlucose)),
   meanQ (df.filterMap (·.bmi)),
   (df.map (·.stroke)).sum)

/-- The Gender `value_counts()` of the filtered view (line 74): one (label, count) pair
per distinct non-missing gender label (pandas drops `NaN`; the display order
of the pairs is not modelled). -/
def gender_counts (fdf : List Patient) : List (String × ℕ) :=
  ((fdf.filterMap (·.gender)).dedup).map
    (fun g => (g, (fdf.filterMap (·.gender)).count g))

/-- The distinct `Age` values of the filtered view: the row index of
`stroke_by_age` (line 84). -/
def strokeAges (fdf : List Patient) : List ℚ :=
  (fdf.map (·.age)).dedup

/-- The distinct `Stroke` values of the filtered view: the column labels of
`stroke_by_age` after `unstack` (line 84).  Only observed outcome values
become columns. -/
def strokeCols (fdf : List Patient) : List ℤ :=
  (fdf.map (·.stroke)).dedup

/-- One cell of `stroke_by_age` (line 84): the number of filtered rows with
the given age and stroke outcome; an (age, outcome) pair missing from the
groupby is 0 by `fill_value=0`. -/
def strokeCell (fdf : List Patient) (a : ℚ) (s : ℤ) : ℕ :=
  (fdf.filter (fun r => r.age = a && r.stroke = s)).length

/-- The number of filtered rows at a given age. -/
def rowsAtAge (fdf : List Patient) (a : ℚ) : ℕ :=
  (fdf.filter (fun r => r.age = a)).length

/-- The Hypertension entry of `counts` (line 97): sum of the hypertension flags. -/
def countsHypertension (fdf : List Patient) : ℤ :=
  (fdf.map (·.hypertension)).sum

/-- The Heart Disease entry of `counts` (line 98): sum of the heart-disease flags. -/
def countsHeartDisease (fdf : List Patient) : ℤ :=
  (fdf.map (·.heartDisease)).sum

/-- The Neither entry of `counts` (line 99): `len(filtered_df)` minus the two flag
sums, exactly as written in the script. -/
def countsNeither (fdf : List Patient) : ℤ :=
  (fdf.length : ℤ) - countsHypertension fdf - countsHeartDisease fdf

/-- `avg_glucose_by_age` (line 110): mean glucose per distinct age of the
filtered view (the ascending ordering of the groupby keys is not modelled;
the (age, mean) pairs are). -/
def avg_glucose_by_age (fdf : List Patient) : List (ℚ × ℚ) :=
  (strokeAges fdf).map
    (fun a => (a, meanQ ((fdf.filter (fun r => r.age = a)).map (·.avgGlucose))))

/-- The data handed to `px.box` (lines 120-126): the (gender, BMI) pairs of
the filtered view. -/
def bmiBoxData (fdf : List Patient) : List (Option String × Option ℚ) :=
  fdf.map (fun r => (r.gender, r.bmi))

/-- `px.pie` accepts any values list, including an empty one (degenerate
empty pie); it never raises on the inputs this script hands it. -/
def pxPie (_values : List ℤ) (_names : List String) : Except String Unit :=
  .ok ()

/-- The column validation `px.bar(stroke_by_age, x=..., y=[0, 1], ...)`
performs (lines 85-92): every entry of `y` must name a column of the data
frame, else plotly express raises `ValueError`.  The columns of
`stroke_by_age` are the observed stroke values. -/
def figStrokeAge (fdf : List Patient) : Except String Unit :=
  if 0 ∈ strokeCols fdf ∧ 1 ∈ strokeCols fdf then .ok ()
  else .error "Value of y is not the name of a column in data_frame"

/-- The five chart units of lines 73-127 in script order: each computes its
aggregation over the filtered view and renders it.  Pie, line and box charts
tolerate empty input; the grouped bar chart requires columns 0 and 1. -/
def renderCharts (fdf : List Patient) : Except String Unit := do
  let gc := gender_counts fdf
  let _ ← pxPie (gc.map (fun p => (p.2 : ℤ))) (gc.map (·.1))
  let _ ← figStrokeAge fdf
  let _ ← pxPie [countsHypertension fdf, countsHeartDisease fdf, countsNeither fdf]
      ["Hypertension", "Heart Disease", "Neither"]
  let _ := avg_glucose_by_age fdf
  let _ := bmiBoxData fdf
  .ok ()

/-- Pick the first label of maximal count from a candidate list.  This models
`Series.mode()[0]` up to tie-break (pandas breaks ties by sorting the values;
the spec fixes only that a most-frequent label is chosen). -/
def pickMax (cnt : String → ℕ) (l : List String) : Option String :=
  l.foldl
    (fun best x =>
      match best with
      | none => some x
      | some b => if cnt b < cnt x then some x else some b)
    none

/-- The Smoking Status `mode()[0]` value (line 143): a most frequent non-missing
smoking-status label of the full dataset. -/
def modalSmoking (df : List Patient) : Option String :=
  pickMax (fun x => (df.filterMap (·.smoking)).count x)
    ((df.filterMap (·.smoking)).dedup)

/-- 100 times the Hypertension column mean (line 144). -/
def hypertensionRate (df : List Patient) : ℚ :=
  100 * meanQ (df.map (fun r => (r.hypertension : ℚ)))

/-- 100 times the Heart Disease column mean (line 145). -/
def heartDiseaseRate (df : List Patient) : ℚ :=
  100 * meanQ (df.map (fun r => (r.heartDisease : ℚ)))

/-- 100 times the Stroke column mean (line 146). -/
def strokeRate (df : List Patient) : ℚ :=
  100 * meanQ (df.map (fun r => (r.stroke : ℚ)))

/-- The six interpolated insight values (lines 140-147), all computed from
`df`, the full unfiltered dataset. -/
def insights (df : List Patient) : ℚ × ℚ × Option String × ℚ × ℚ × ℚ :=
  (meanQ (df.map (·.avgGlucose)),
   meanQ (df.filterMap (·.bmi)),
   modalSmoking df,
   hypertensionRate df,
   heartDiseaseRate df,
   strokeRate df)

/-- Concrete rows used to instantiate the theorems below on small datasets. -/
def samplePatient (age : ℚ) (gender smoking : Option String) (stroke : ℤ) : Patient :=
  { id := 0
    gender := gender
    age := age
    hypertension := 0
    heartDisease := 0
    everMarried := 0
    workType := some "Private"
    residence := some "Urban"
    avgGlucose := 100
    bmi := some 25
    smokingCode := 0
    smoking := smoking
    stroke := stroke }

theorem rowPred_iff (a b : ℚ) (g s : List String) (r : Patient) :
    rowPred a b g s r = true ↔
      a ≤ r.age ∧ r.age ≤ b ∧ (∃ gl, r.gender = some gl ∧ gl ∈ g) ∧
        ∃ sl, r.smoking = some sl ∧ sl ∈ s := by
  cases hg : r.gender with
  | none => simp [rowPred, genderIsin, hg]
  | some gl =>
    cases hs : r.smoking with
    | none => simp [rowPred, genderIsin, smokingIsin, hg, hs]
    | some sl => simp [rowPred, genderIsin, smokingIsin, hg, hs, and_assoc]

/-- C1: the filtered view is exactly the subsequence of the dataset whose
rows have age in `[a, b]` (inclusive), a gender label in the selected gender
set, and a smoking-status label in the selected smoking set; no other row
appears and no qualifying row is dropped. -/
theorem filtered_df_spec (df : List Patient) (a b : ℚ) (g s : List String) :
    (filtered_df df a b g s).Sublist df ∧
      ∀ r, r ∈ filtered_df df a b g s ↔
        r ∈ df ∧ a ≤ r.age ∧ r.age ≤ b ∧
          (∃ gl, r.gender = some gl ∧ gl ∈ g) ∧
          ∃ sl, r.smoking = some sl ∧ sl ∈ s := by
  refine ⟨List.filter_sublist df, fun r => ?_⟩
  rw [filtered_df, List.mem_filter, rowPred_iff]

/-- Instantiation of `filtered_df_spec` on a concrete two-row dataset: the
male smoker row passes the `gender = Male` filter and the female row does
not. -/
theorem filtered_df_spec_witness :
    samplePatient 45 (some "Male") (some "Smokes") 1 ∈
        filtered_df
          [samplePatient 45 (some "Male") (some "Smokes") 1,
           samplePatient 45 (some "Female") (some "Never Smoked") 0]
          0 80 ["Male"] ["Smokes", "Never Smoked"] ∧
      ¬ samplePatient 45 (some "Female") (some "Never Smoked") 0 ∈
        filtered_df
          [samplePatient 45 (some "Male") (some "Smokes") 1,
           samplePatient 45 (some "Female") (some "Never Smoked") 0]
          0 80 ["Male"] ["Smokes", "Never Smoked"] := by
  constructor
  · exact ((filtered_df_spec
      [samplePatient 45 (some "Male") (some "Smokes") 1,
       samplePatient 45 (some "Female") (some "Never Smoked") 0]
      0 80 ["Male"] ["Smokes", "Never Smoked"]).2 _).mpr
      (by refine ⟨by decide, by decide, by decide, ⟨"Male", by decide⟩, "Smokes", by decide⟩)
  · intro hmem
    have h := ((filtered_df_spec
      [samplePatient 45 (some "Male") (some "Smokes") 1,
       samplePatient 45 (some "Female") (some "Never Smoked") 0]
      0 80 ["Male"] ["Smokes", "Never Smoked"]).2 _).mp hmem
    rcases h.2.2.2.1 with ⟨gl, hgl, hmemg⟩
    revert hmemg
    simp [samplePatient] at hgl
    simp [← hgl]

/-- C4: the pie-chart aggregation satisfies the documented subtraction
formula as written in the script, and consequently its three values always
sum to the filtered row count (over `ℤ`, so `Neither` may be negative). -/
theorem pie_counts_sum_total (fdf : List Patient) :
    countsNeither fdf =
        (fdf.length : ℤ) - countsHypertension fdf - countsHeartDisease fdf ∧
      countsHypertension fdf + countsHeartDisease fdf + countsNeither fdf =
        (fdf.length : ℤ) := by
  refine ⟨rfl, ?_⟩
  unfold countsNeither
  ring

/-- C10: filtering never invents rows — every filtered view is a subsequence
of the loaded dataset — and it is antitone in the selection: shrinking the
age range and the gender and smoking selections can only remove rows, never
add one (the narrower view is a subsequence of the wider one). -/
theorem filter_monotone (df : List Patient) (a b a2 b2 : ℚ)
    (g s g2 s2 : List String) (hA : a ≤ a2) (hB : b2 ≤ b)
    (hG : g2 ⊆ g) (hS : s2 ⊆ s) :
    (filtered_df df a b g s).Sublist df ∧
      (filtered_df df a2 b2 g2 s2).Sublist (filtered_df df a b g s) := by
  refine ⟨List.filter_sublist df, List.monotone_filter_right df (fun r hr => ?_)⟩
  rw [rowPred_iff] at hr ⊢
  obtain ⟨h1, h2, ⟨gl, hgl, hglmem⟩, sl, hsl, hslmem⟩ := hr
  exact ⟨le_trans hA h1, le_trans h2 hB, ⟨gl, hgl, hG hglmem⟩, sl, hsl, hS hslmem⟩

/-- Instantiation of `filter_monotone`: narrowing the age range from
`[0, 80]` to `[40, 50]` on a concrete dataset keeps the narrow view inside
the wide one. -/
theorem filter_monotone_witness :
    (filtered_df [samplePatient 45 (some "Male") (some "Smokes") 1] 0 80
        ["Male"] ["Smokes"]).Sublist
        [samplePatient 45 (some "Male") (some "Smokes") 1] ∧
      (filtered_df [samplePatient 45 (some "Male") (some "Smokes") 1] 40 50
        ["Male"] ["Smokes"]).Sublist
        (filtered_df [samplePatient 45 (some "Male") (some "Smokes") 1] 0 80
          ["Male"] ["Smokes"]) :=
  filter_monotone [samplePatient 45 (some "Male") (some "Smokes") 1]
    0 80 40 50 ["Male"] ["Smokes"] ["Male"] ["Smokes"]
    (by decide) (by decide) (fun x hx => hx) (fun x hx => hx)

theorem strokeCell_partition (fdf : List Patient) (a : ℚ)
    (h01 : ∀ r ∈ fdf, r.stroke = 0 ∨ r.stroke = 1) :
    strokeCell fdf a 0 + strokeCell fdf a 1 = rowsAtAge fdf a := by
  induction fdf with
  | nil => rfl
  | cons r t ih =>
    have hr := h01 r (List.mem_cons_self r t)
    have iht := ih (fun x hx => h01 x (List.mem_cons_of_mem r hx))
    simp only [strokeCell, rowsAtAge] at iht ⊢
    by_cases hage : r.age = a
    · rcases hr with h0 | h1
      · simp [List.filter_cons, hage, h0]
        omega
      · simp [List.filter_cons, hage, h1]
        omega
    · simp [List.filter_cons, hage]
      omega

/-- C5: in the stroke-by-age grouped bar data, for every age present in the
filtered view the outcome-0 count plus the outcome-1 count equals the number
of filtered rows at that age, an outcome missing at an age contributing zero
(`fill_value=0`), provided the stroke column is the 0/1 flag the data model
prescribes. -/
theorem stroke_by_age_partition (fdf : List Patient) (a : ℚ)
    (_ha : a ∈ strokeAges fdf)
    (h01 : ∀ r ∈ fdf, r.stroke = 0 ∨ r.stroke = 1) :
    strokeCell fdf a 0 + strokeCell fdf a 1 = rowsAtAge fdf a :=
  strokeCell_partition fdf a h01

/-- Instantiation of `stroke_by_age_partition` on a three-row dataset with a
stroke case and a non-case at age 45 and a lone case at age 60. -/
theorem stroke_by_age_partition_witness :
    strokeCell
        [samplePatient 45 (some "Male") (some "Smokes") 1,
         samplePatient 45 (some "Female") (some "Never Smoked") 0,
         samplePatient 60 (some "Male") (some "Unknown") 1] 45 0 +
      strokeCell
        [samplePatient 45 (some "Male") (some "Smokes") 1,
         samplePatient 45 (some "Female") (some "Never Smoked") 0,
         samplePatient 60 (some "Male") (some "Unknown") 1] 45 1 =
      rowsAtAge
        [samplePatient 45 (some "Male") (some "Smokes") 1,
         samplePatient 45 (some "Female") (some "Never Smoked") 0,
         samplePatient 60 (some "Male") (some "Unknown") 1] 45 :=
  stroke_by_age_partition
    [samplePatient 45 (some "Male") (some "Smokes") 1,
     samplePatient 45 (some "Female") (some "Never Smoked") 0,
     samplePatient 60 (some "Male") (some "Unknown") 1] 45
    (by decide) (by decide)

/-- C6: the four KPI cards read the full unfiltered dataset, so their values
are invariant under any change of the filter selection, and they are exactly
the row count, the mean glucose, the mean of the non-missing BMI values, and
the stroke-column sum of the loaded dataset. -/
theorem kpi_cards_unfiltered (df : List Patient) (a b a2 b2 : ℚ)
    (g s g2 s2 : List String) :
    kpiCards df a b g s = kpiCards df a2 b2 g2 s2 ∧
      kpiCards df a b g s =
        (df.length, meanQ (df.map (·.avgGlucose)),
         meanQ (df.filterMap (·.bmi)), (df.map (·.stroke)).sum) :=
  ⟨rfl, rfl⟩

/-- A one-row dataset used to exhibit an empty filter result. -/
def dfEmptyFilter : List Patient :=
  [samplePatient 50 (some "Male") (some "Smokes") 1]

/-- C2: an age range excluding every row yields an empty filtered view, and
on it the stroke-by-age bar chart raises: the `groupby`/`unstack` of zero
rows has no columns at all, so `px.bar(..., y=[0, 1])` fails its column
lookup with a `ValueError` instead of rendering a degenerate empty chart. -/
theorem empty_filter_bar_chart_error :
    filtered_df dfEmptyFilter 0 10 (defaultGenders dfEmptyFilter)
        (defaultSmoking dfEmptyFilter) = [] ∧
      renderCharts
          (filtered_df dfEmptyFilter 0 10 (defaultGenders dfEmptyFilter)
            (defaultSmoking dfEmptyFilter)) =
        .error "Value of y is not the name of a column in data_frame" :=
  ⟨rfl, rfl⟩

/-- C9: the slider bounds are the Python `int()` truncations of the minimum
and maximum observed age, and any record whose age exceeds the truncated
maximum fails the `Age <= age_range[1]` mask even at the widest (default)
slider setting with the default gender and smoking selections. -/
theorem slider_bounds_truncate_excludes (df : List Patient) (r : Patient)
    (_hr : r ∈ df) (hgt : ((defaultHi df : ℤ) : ℚ) < r.age) :
    defaultLo df = pyInt (minQ (agesOf df)) ∧
      defaultHi df = pyInt (maxQ (agesOf df)) ∧
      r ∉ filtered_df df ((defaultLo df : ℤ) : ℚ) ((defaultHi df : ℤ) : ℚ)
          (defaultGenders df) (defaultSmoking df) := by
  refine ⟨rfl, rfl, fun hmem => ?_⟩
  rw [filtered_df, List.mem_filter, rowPred_iff] at hmem
  exact absurd hmem.2.2.1 (not_le.mpr hgt)

/-- Instantiation of `slider_bounds_truncate_excludes`: a dataset whose only
row has the fractional age 1/2 gets slider bounds `(0, 0)`, and that row is
excluded from the default filtered view. -/
theorem slider_bounds_truncate_excludes_witness :
    samplePatient (mkRat 1 2) (some "Male") (some "Smokes") 0 ∉
      filtered_df [samplePatient (mkRat 1 2) (some "Male") (some "Smokes") 0]
        ((defaultLo [samplePatient (mkRat 1 2) (some "Male") (some "Smokes") 0] : ℤ) : ℚ)
        ((defaultHi [samplePatient (mkRat 1 2) (some "Male") (some "Smokes") 0] : ℤ) : ℚ)
        (defaultGenders [samplePatient (mkRat 1 2) (some "Male") (some "Smokes") 0])
        (defaultSmoking [samplePatient (mkRat 1 2) (some "Male") (some "Smokes") 0]) :=
  (slider_bounds_truncate_excludes
    [samplePatient (mkRat 1 2) (some "Male") (some "Smokes") 0]
    (samplePatient (mkRat 1 2) (some "Male") (some "Smokes") 0)
    (by decide) (by decide)).2.2

theorem foldl_min_le_init (l : List ℚ) (acc : ℚ) : l.foldl min acc ≤ acc := by
  induction l generalizing acc with
  | nil => exact le_refl acc
  | cons x xs ih => exact le_trans (ih (min acc x)) (min_le_left acc x)

theorem foldl_min_le_mem (l : List ℚ) (acc x : ℚ) (hx : x ∈ l) :
    l.foldl min acc ≤ x := by
  induction l generalizing acc with
  | nil => cases hx
  | cons y ys ih =>
    rcases List.mem_cons.mp hx with rfl | hy
    · exact le_trans (foldl_min_le_init ys (min acc x)) (min_le_right acc x)
    · exact ih (min acc y) hy

theorem minQ_le (l : List ℚ) (x : ℚ) (hx : x ∈ l) : minQ l ≤ x := by
  cases l with
  | nil => cases hx
  | cons y ys =>
    rcases List.mem_cons.mp hx with rfl | hy
    · exact foldl_min_le_init ys x
    · exact foldl_min_le_mem ys y x hy

theorem le_foldl_max_init (l : List ℚ) (acc : ℚ) : acc ≤ l.foldl max acc := by
  induction l generalizing acc with
  | nil => exact le_refl acc
  | cons x xs ih => exact le_trans (le_max_left acc x) (ih (max acc x))

theorem le_foldl_max_mem (l : List ℚ) (acc x : ℚ) (hx : x ∈ l) :
    x ≤ l.foldl max acc := by
  induction l generalizing acc with
  | nil => cases hx
  | cons y ys ih =>
    rcases List.mem_cons.mp hx with rfl | hy
    · exact le_trans (le_max_right acc x) (le_foldl_max_init ys (max acc x))
    · exact ih (max acc y) hy

theorem le_maxQ (l : List ℚ) (x : ℚ) (hx : x ∈ l) : x ≤ maxQ l := by
  cases l with
  | nil => cases hx
  | cons y ys =>
    rcases List.mem_cons.mp hx with rfl | hy
    · exact le_foldl_max_init ys x
    · exact le_foldl_max_mem ys y x hy

theorem foldl_min_mem (l : List ℚ) (acc : ℚ) :
    l.foldl min acc = acc ∨ l.foldl min acc ∈ l := by
  induction l generalizing acc with
  | nil => exact Or.inl rfl
  | cons x xs ih =>
    rcases ih (min acc x) with h | h
    · rcases min_choice acc x with hc | hc
      · exact Or.inl (by rw [List.foldl_cons, h, hc])
      · exact Or.inr (by rw [List.foldl_cons, h, hc]; exact List.mem_cons_self x xs)
    · exact Or.inr (List.mem_cons_of_mem x h)

theorem minQ_mem (l : List ℚ) (h : l ≠ []) : minQ l ∈ l := by
  cases l with
  | nil => exact absurd rfl h
  | cons x xs =>
    rcases foldl_min_mem xs x with hc | hc
    · rw [minQ, hc]; exact List.mem_cons_self x xs
    · exact List.mem_cons_of_mem x hc

theorem foldl_max_mem (l : List ℚ) (acc : ℚ) :
    l.foldl max acc = acc ∨ l.foldl max acc ∈ l := by
  induction l generalizing acc with
  | nil => exact Or.inl rfl
  | cons x xs ih =>
    rcases ih (max acc x) with h | h
    · rcases max_choice acc x with hc | hc
      · exact Or.inl (by rw [List.foldl_cons, h, hc])
      · exact Or.inr (by rw [List.foldl_cons, h, hc]; exact List.mem_cons_self x xs)
    · exact Or.inr (List.mem_cons_of_mem x h)

theorem maxQ_mem (l : List ℚ) (h : l ≠ []) : maxQ l ∈ l := by
  cases l with
  | nil => exact absurd rfl h
  | cons x xs =>
    rcases foldl_max_mem xs x with hc | hc
    · rw [maxQ, hc]; exact List.mem_cons_self x xs
    · exact List.mem_cons_of_mem x hc

theorem pyInt_den_one {q : ℚ} (h : q.den = 1) : (pyInt q : ℚ) = q := by
  have h1 : pyInt q = q.num := by
    simp [pyInt, Rat.floor, Rat.ceil, h]
  rw [h1, Rat.coe_int_num_of_den_eq_one h]

/-- Counterexample to C3 as stated.  First input: a one-row dataset whose
only age is the fraction 1/2, so the widest slider range truncates to
`(0, 0)` and the default filter drops the row.  Second input: a one-row
dataset with a whole-number age but an unmapped gender code (label `none`),
so the default gender selection cannot contain its label and the row is
dropped.  In both cases the default-filtered row count differs from the
dataset row count. -/
theorem default_filter_full_count_cex :
    (filtered_df [samplePatient (mkRat 1 2) (some "Female") (some "Unknown") 0]
        ((defaultLo [samplePatient (mkRat 1 2) (some "Female") (some "Unknown") 0] : ℤ) : ℚ)
        ((defaultHi [samplePatient (mkRat 1 2) (some "Female") (some "Unknown") 0] : ℤ) : ℚ)
        (defaultGenders [samplePatient (mkRat 1 2) (some "Female") (some "Unknown") 0])
        (defaultSmoking [samplePatient (mkRat 1 2) (some "Female") (some "Unknown") 0])).length ≠
      [samplePatient (mkRat 1 2) (some "Female") (some "Unknown") 0].length ∧
    (filtered_df [samplePatient 42 none (some "Unknown") 0]
        ((defaultLo [samplePatient 42 none (some "Unknown") 0] : ℤ) : ℚ)
        ((defaultHi [samplePatient 42 none (some "Unknown") 0] : ℤ) : ℚ)
        (defaultGenders [samplePatient 42 none (some "Unknown") 0])
        (defaultSmoking [samplePatient 42 none (some "Unknown") 0])).length ≠
      [samplePatient 42 none (some "Unknown") 0].length := by
  exact ⟨by decide, by decide⟩

/-- C3 (amended): for every nonempty dataset whose ages are whole numbers
and whose gender and smoking-status labels are all defined, filtering with
the default (widest) slider range and the default gender and smoking
selections reproduces the dataset, in particular its row count. -/
theorem default_filter_full_count (df : List Patient) (hne : df ≠ [])
    (hage : ∀ r ∈ df, (r.age).den = 1)
    (hg : ∀ r ∈ df, r.gender.isSome)
    (hs : ∀ r ∈ df, r.smoking.isSome) :
    filtered_df df ((defaultLo df : ℤ) : ℚ) ((defaultHi df : ℤ) : ℚ)
        (defaultGenders df) (defaultSmoking df) = df ∧
      (filtered_df df ((defaultLo df : ℤ) : ℚ) ((defaultHi df : ℤ) : ℚ)
        (defaultGenders df) (defaultSmoking df)).length = df.length := by
  have hagesne : agesOf df ≠ [] := by
    simpa [agesOf, List.map_eq_nil_iff] using hne
  have hminden : (minQ (agesOf df)).den = 1 := by
    obtain ⟨r, hr, hrage⟩ := List.mem_map.mp (minQ_mem (agesOf df) hagesne)
    rw [← hrage]; exact hage r hr
  have hmaxden : (maxQ (agesOf df)).den = 1 := by
    obtain ⟨r, hr, hrage⟩ := List.mem_map.mp (maxQ_mem (agesOf df) hagesne)
    rw [← hrage]; exact hage r hr
  have key : filtered_df df ((defaultLo df : ℤ) : ℚ) ((defaultHi df : ℤ) : ℚ)
      (defaultGenders df) (defaultSmoking df) = df := by
    refine List.filter_eq_self.mpr (fun r hr => ?_)
    rw [rowPred_iff]
    refine ⟨?_, ?_, ?_, ?_⟩
    · rw [defaultLo, pyInt_den_one hminden]
      exact minQ_le (agesOf df) r.age (List.mem_map_of_mem (·.age) hr)
    · rw [defaultHi, pyInt_den_one hmaxden]
      exact le_maxQ (agesOf df) r.age (List.mem_map_of_mem (·.age) hr)
    · obtain ⟨gl, hgl⟩ := Option.isSome_iff_exists.mp (hg r hr)
      exact ⟨gl, hgl, List.mem_dedup.mpr (List.mem_filterMap.mpr ⟨r, hr, hgl⟩)⟩
    · obtain ⟨sl, hsl⟩ := Option.isSome_iff_exists.mp (hs r hr)
      exact ⟨sl, hsl, List.mem_dedup.mpr (List.mem_filterMap.mpr ⟨r, hr, hsl⟩)⟩
  exact ⟨key, by rw [key]⟩

/-- Instantiation of `default_filter_full_count` on a concrete two-row
dataset with whole-number ages and defined labels. -/
theorem default_filter_full_count_witness :
    (filtered_df
        [samplePatient 42 (some "Male") (some "Smokes") 1,
         samplePatient 67 (some "Female") (some "Never Smoked") 0]
        ((defaultLo [samplePatient 42 (some "Male") (some "Smokes") 1,
            samplePatient 67 (some "Female") (some "Never Smoked") 0] : ℤ) : ℚ)
        ((defaultHi [samplePatient 42 (some "Male") (some "Smokes") 1,
            samplePatient 67 (some "Female") (some "Never Smoked") 0] : ℤ) : ℚ)
        (defaultGenders [samplePatient 42 (some "Male") (some "Smokes") 1,
            samplePatient 67 (some "Female") (some "Never Smoked") 0])
        (defaultSmoking [samplePatient 42 (some "Male") (some "Smokes") 1,
            samplePatient 67 (some "Female") (some "Never Smoked") 0])).length =
      [samplePatient 42 (some "Male") (some "Smokes") 1,
       samplePatient 67 (some "Female") (some "Never Smoked") 0].length :=
  (default_filter_full_count
    [samplePatient 42 (some "Male") (some "Smokes") 1,
     samplePatient 67 (some "Female") (some "Never Smoked") 0]
    (by decide) (by decide) (by decide) (by decide)).2

theorem pickMax_go (cnt : String → ℕ) (l : List String) :
    ∀ b : String,
      ∃ m, l.foldl
            (fun best x =>
              match best with
              | none => some x
              | some c => if cnt c < cnt x then some x else some c)
            (some b) = some m ∧
        (m = b ∨ m ∈ l) ∧ cnt b ≤ cnt m ∧ ∀ x ∈ l, cnt x ≤ cnt m := by
  induction l with
  | nil => exact fun b => ⟨b, rfl, Or.inl rfl, le_refl _, by simp⟩
  | cons x xs ih =>
    intro b
    by_cases hbx : cnt b < cnt x
    · obtain ⟨m, hm, hmem, hle, hall⟩ := ih x
      refine ⟨m, ?_, ?_, le_trans (le_of_lt hbx) hle, ?_⟩
      · rw [List.foldl_cons]
        simpa [hbx] using hm
      · rcases hmem with rfl | h
        · exact Or.inr (List.mem_cons_self m xs)
        · exact Or.inr (List.mem_cons_of_mem x h)
      · intro y hy
        rcases List.mem_cons.mp hy with rfl | h
        · exact hle
        · exact hall y h
    · obtain ⟨m, hm, hmem, hle, hall⟩ := ih b
      refine ⟨m, ?_, ?_, hle, ?_⟩
      · rw [List.foldl_cons]
        simpa [hbx] using hm
      · rcases hmem with rfl | h
        · exact Or.inl rfl
        · exact Or.inr (List.mem_cons_of_mem x h)
      · intro y hy
        rcases List.mem_cons.mp hy with rfl | h
        · exact le_trans (not_lt.mp hbx) hle
        · exact hall y h

theorem pickMax_spec (cnt : String → ℕ) (l : List String) (h : l ≠ []) :
    ∃ m, pickMax cnt l = some m ∧ m ∈ l ∧ ∀ x ∈ l, cnt x ≤ cnt m := by
  cases l with
  | nil => exact absurd rfl h
  | cons y ys =>
    obtain ⟨m, hm, hmem, hbe, hall⟩ := pickMax_go cnt ys y
    refine ⟨m, ?_, ?_, ?_⟩
    · rw [pickMax, List.foldl_cons]
      exact hm
    · rcases hmem with rfl | hmem2
      · exact List.mem_cons_self m ys
      · exact List.mem_cons_of_mem y hmem2
    · intro x hx
      rcases List.mem_cons.mp hx with rfl | hx2
      · exact hbe
      · exact hall x hx2

/-- C7: the six insight values are computed from the full unfiltered dataset
— mean glucose, mean of the non-missing BMI values, the modal smoking-status
label, and 100 times the mean of each of the hypertension, heart-disease and
stroke flag columns — and, whenever some smoking label is defined, the modal
label is a most frequent one. -/
theorem insights_unfiltered_spec (df : List Patient) :
    insights df =
        (meanQ (df.map (·.avgGlucose)), meanQ (df.filterMap (·.bmi)),
         modalSmoking df,
         100 * meanQ (df.map (fun r => (r.hypertension : ℚ))),
         100 * meanQ (df.map (fun r => (r.heartDisease : ℚ))),
         100 * meanQ (df.map (fun r => (r.stroke : ℚ)))) ∧
      (df.filterMap (·.smoking) ≠ [] →
        ∃ m, modalSmoking df = some m ∧ m ∈ df.filterMap (·.smoking) ∧
          ∀ x ∈ df.filterMap (·.smoking),
            (df.filterMap (·.smoking)).count x ≤
              (df.filterMap (·.smoking)).count m) := by
  refine ⟨rfl, fun hne => ?_⟩
  have hdne : (df.filterMap (·.smoking)).dedup ≠ [] := by
    simpa [List.dedup_eq_nil] using hne
  obtain ⟨m, hm, hmem, hall⟩ :=
    pickMax_spec (fun x => (df.filterMap (·.smoking)).count x)
      ((df.filterMap (·.smoking)).dedup) hdne
  exact ⟨m, hm, List.mem_dedup.mp hmem,
    fun x hx => hall x (List.mem_dedup.mpr hx)⟩

/-- Instantiation of `insights_unfiltered_spec` on a concrete dataset where
Smokes is the modal smoking status. -/
theorem insights_unfiltered_spec_witness :
    ∃ m, modalSmoking
          [samplePatient 45 (some "Male") (some "Smokes") 1,
           samplePatient 50 (some "Female") (some "Smokes") 0,
           samplePatient 60 (some "Male") (some "Unknown") 0] = some m ∧
        m ∈ [samplePatient 45 (some "Male") (some "Smokes") 1,
             samplePatient 50 (some "Female") (some "Smokes") 0,
             samplePatient 60 (some "Male") (some "Unknown") 0].filterMap (·.smoking) ∧
        ∀ x ∈ [samplePatient 45 (some "Male") (some "Smokes") 1,
               samplePatient 50 (some "Female") (some "Smokes") 0,
               samplePatient 60 (some "Male") (some "Unknown") 0].filterMap (·.smoking),
          ([samplePatient 45 (some "Male") (some "Smokes") 1,
            samplePatient 50 (some "Female") (some "Smokes") 0,
            samplePatient 60 (some "Male") (some "Unknown") 0].filterMap (·.smoking)).count x ≤
            ([samplePatient 45 (some "Male") (some "Smokes") 1,
              samplePatient 50 (some "Female") (some "Smokes") 0,
              samplePatient 60 (some "Male") (some "Unknown") 0].filterMap (·.smoking)).count m :=
  (insights_unfiltered_spec
    [samplePatient 45 (some "Male") (some "Smokes") 1,
     samplePatient 50 (some "Female") (some "Smokes") 0,
     samplePatient 60 (some "Male") (some "Unknown") 0]).2 (by decide)

/-- C8: at load time each categorical column is remapped exactly once
through its fixed lookup table; a code outside the domain of a table maps to the
absent label `none` rather than raising; and a row carrying an absent gender
or smoking label can never reach a filtered view, so the chart renderers
never see an absent label. -/
theorem load_remap_spec (raw : List Raw) (c : ℤ) :
    (load_data raw).map (·.gender) = raw.map (fun r => gender_map r.genderCode) ∧
      (load_data raw).map (·.workType) =
        raw.map (fun r => work_type_map r.workTypeCode) ∧
      (load_data raw).map (·.residence) =
        raw.map (fun r => residence_type_map r.residenceCode) ∧
      (load_data raw).map (·.smoking) =
        raw.map (fun r => smoking_status_map r.smokingCode) ∧
      (gender_map c = none ↔ c ≠ 0 ∧ c ≠ 1) ∧
      (work_type_map c = none ↔ c ≠ 0 ∧ c ≠ 1 ∧ c ≠ 2 ∧ c ≠ 3 ∧ c ≠ 4) ∧
      (residence_type_map c = none ↔ c ≠ 0 ∧ c ≠ 1) ∧
      (smoking_status_map c = none ↔ c ≠ 0 ∧ c ≠ 1 ∧ c ≠ 2 ∧ c ≠ 3) ∧
      ∀ df a b g s r, r ∈ filtered_df df a b g s →
        r.gender.isSome ∧ r.smoking.isSome := by
  refine ⟨?_, ?_, ?_, ?_, ?_, ?_, ?_, ?_, ?_⟩
  · simp only [load_data, List.map_map]; exact List.map_congr_left (fun r _ => rfl)
  · simp only [load_data, List.map_map]; exact List.map_congr_left (fun r _ => rfl)
  · simp only [load_data, List.map_map]; exact List.map_congr_left (fun r _ => rfl)
  · simp only [load_data, List.map_map]; exact List.map_congr_left (fun r _ => rfl)
  · unfold gender_map; split_ifs <;> simp_all
  · unfold work_type_map; split_ifs <;> simp_all
  · unfold residence_type_map; split_ifs <;> simp_all
  · unfold smoking_status_map; split_ifs <;> simp_all
  · intro df a b g s r hmem
    rw [filtered_df, List.mem_filter] at hmem
    obtain ⟨_, _, ⟨gl, hgl, _⟩, sl, hsl, _⟩ := (rowPred_iff a b g s r).mp hmem.2
    simp [hgl, hsl]

/-- Instantiation of `load_remap_spec`: the out-of-domain codes 5 and -1 map
to absent labels, and a row of a concrete filtered view has defined gender
and smoking labels. -/
theorem load_remap_spec_witness :
    gender_map 5 = none ∧ smoking_status_map (-1) = none ∧
      ((samplePatient 45 (some "Male") (some "Smokes") 1).gender.isSome ∧
        (samplePatient 45 (some "Male") (some "Smokes") 1).smoking.isSome) :=
  ⟨(load_remap_spec [] 5).2.2.2.2.1.mpr (by decide),
   (load_remap_spec [] (-1)).2.2.2.2.2.2.2.1.mpr (by decide),
   (load_remap_spec [] 0).2.2.2.2.2.2.2.2
     [samplePatient 45 (some "Male") (some "Smokes") 1] 0 80 ["Male"] ["Smokes"]
     (samplePatient 45 (some "Male") (some "Smokes") 1) (by decide)⟩

end Stroke
